import Mathlib

/-!
Verification of the GST reconciliation engine (repository RECONCILATION).

The Lean definitions below are a shallow embedding of the Python sources:
  - config.py                                  (thresholds, mapping tables)
  - reconcilation/gstr1_books.py               (class GSTR1BooksReconciliation)
  - reconcilation/itc_reconcilation.py         (reconcile_itc_gstr3b_gstr2b)
  - reconcilation/gstr1_eway.py                (reconcile_gstr1_eway, np.isclose test)
  - reconcilation/gstr1_einvoice.py            (reconcile_gstr1_einvoice)
  - utils/data_processor.py                    (process_reconciliation,
                                                generic_reconciliation, apply_thresholds)
  - main.py                                    (Streamlit GSTR-2B vs purchase register
                                                matching cascade and summary)

Machine numbers are modelled by Rat.  A pandas NaT date is Option.none, a NaN
cell is Option.none, np.inf percentage results are Option.none with a comment
at each use site.  Fallible Python code (raise) is modelled with Except.
-/

/-- Decidable equality for Except results, used to evaluate the embedding on
concrete inputs. -/
instance {ε α : Type} [DecidableEq ε] [DecidableEq α] : DecidableEq (Except ε α) := fun x y =>
  match x, y with
  | .ok a, .ok b =>
    if h : a = b then isTrue (by rw [h])
    else isFalse (by intro hc; injection hc; contradiction)
  | .error a, .error b =>
    if h : a = b then isTrue (by rw [h])
    else isFalse (by intro hc; injection hc; contradiction)
  | .ok _, .error _ => isFalse (by intro hc; cases hc)
  | .error _, .ok _ => isFalse (by intro hc; cases hc)

/-- config.py line 168: AMOUNT_THRESHOLD = 1.0 (absolute currency units). -/
def AMOUNT_THRESHOLD : ℚ := 1

/-- config.py line 169: PERCENTAGE_THRESHOLD = 0.01 (fraction, 1 percent). -/
def PERCENTAGE_THRESHOLD : ℚ := 1 / 100

/-! ## Dates and strftime -/

/-- A successfully parsed invoice date (year, month, day).  pd.to_datetime with
errors=coerce yields either such a timestamp or NaT; NaT is Option.none. -/
structure YMD where
  y : Nat
  m : Nat
  d : Nat
deriving DecidableEq, Repr

/-- two-digit zero padding, as strftime format fields %m and %d produce. -/
def pad2 (n : Nat) : String :=
  if n < 10 then "0" ++ toString n else toString n

/-- four-digit zero padding, as strftime format field %Y produces. -/
def pad4 (n : Nat) : String :=
  if n < 10 then "000" ++ toString n
  else if n < 100 then "00" ++ toString n
  else if n < 1000 then "0" ++ toString n
  else toString n

/-- Timestamp.strftime with format %Y-%m-%d. -/
def strftimeYMD (t : YMD) : String :=
  pad4 t.y ++ "-" ++ pad2 t.m ++ "-" ++ pad2 t.d

/-! ## gstr1_books.py : records and match keys -/

/-- One mapped row of the GSTR-1 or Books table as GSTR1BooksReconciliation.reconcile
sees it.  vals is the association list of value-column cells present in the row:
a column that is absent from the row has no entry, a NaN cell is (c, none). -/
structure InvRecord where
  invoiceNumber : String
  invoiceDate : Option YMD
  gstin : String
  vals : List (String × Option ℚ)
deriving DecidableEq, Repr

/-- gstr1_books.py lines 116-117: the declared numeric value columns. -/
def value_columns : List String :=
  ["Invoice Value", "Taxable Value", "Integrated Tax", "Central Tax", "State/UT Tax", "Cess"]

/-- gstr1_books.py lines 120-123: the A-side lambda building
f-string invoiceNumber _ strftime(%Y-%m-%d) _ gstin.  No case folding, no
whitespace trimming is applied to the field values. -/
def gstr1SideMatchKey (inv : String) (dt : YMD) (gstin : String) : String :=
  inv ++ "_" ++ strftimeYMD dt ++ "_" ++ gstin

/-- gstr1_books.py lines 125-128: the books-side lambda, textually identical to
the A-side one. -/
def booksSideMatchKey (inv : String) (dt : YMD) (gstin : String) : String :=
  inv ++ "_" ++ strftimeYMD dt ++ "_" ++ gstin

/-- The match-key computation for one record.  On a NaT invoice date the Python
call x.strftime raises ValueError (NaTType does not support strftime), which the
surrounding try/except of reconcile re-raises: modelled as Except.error. -/
def matchKey (r : InvRecord) : Except String String :=
  match r.invoiceDate with
  | none => .error "NaTType does not support strftime"
  | some t => .ok (gstr1SideMatchKey r.invoiceNumber t r.gstin)

/-- df.apply of the match-key lambda over the rows, in row order; the first
failing row aborts the whole column computation. -/
def keyed : List InvRecord → Except String (List (InvRecord × String))
  | [] => .ok []
  | r :: rs =>
    match matchKey r, keyed rs with
    | .ok k, .ok ks => .ok ((r, k) :: ks)
    | .error e, _ => .error e
    | .ok _, .error e => .error e

/-- The list of match keys of a table (the match_key column). -/
def keysOf (rs : List InvRecord) : Except String (List String) :=
  (keyed rs).map (List.map Prod.snd)

/-! ## gstr1_books.py : per-field tolerance comparison -/

/-- One entry of the differences dict built at gstr1_books.py lines 161-166. -/
structure FieldDiff where
  field : String
  gstr1 : ℚ
  books : ℚ
  difference : ℚ
  percentage : ℚ
deriving DecidableEq, Repr

/-- gstr1_books.py line 157: percent_diff = abs_diff / max(|a|, |b|, 1) * 100 when
max(|a|, |b|) > 0, else 0. -/
def gstr1BooksPercent (a b : ℚ) : ℚ :=
  if max |a| |b| > 0 then |a - b| / max (max |a| |b|) 1 * 100 else 0

/-- gstr1_books.py lines 155-166: a value column is recorded as a difference only
when abs_diff exceeds the amount threshold and, inside that branch, percent_diff
exceeds percentage_threshold * 100. -/
def fieldCheck (field : String) (g b : ℚ) : Option FieldDiff :=
  let abs_diff := |g - b|
  if abs_diff > AMOUNT_THRESHOLD then
    let percent_diff := gstr1BooksPercent g b
    if percent_diff > PERCENTAGE_THRESHOLD * 100 then
      some ⟨field, g, b, g - b, percent_diff⟩
    else none
  else none

/-- Cell lookup: none when the column is absent from the row. -/
def lookupVal (r : InvRecord) (c : String) : Option (Option ℚ) :=
  (r.vals.find? (fun p => p.1 == c)).map Prod.snd

/-- gstr1_books.py lines 150-166: the differences dict for one matched pair.
A cell that is present but NaN is compared as 0 (pd.isna branch). -/
def recordDiffs (g b : InvRecord) : List FieldDiff :=
  value_columns.filterMap (fun c =>
    match lookupVal g c, lookupVal b c with
    | some gv, some bv => fieldCheck c (gv.getD 0) (bv.getD 0)
    | _, _ => none)

/-- has_differences is false exactly when the differences dict stayed empty. -/
def noDiffs (t : InvRecord × InvRecord × List FieldDiff) : Bool :=
  t.2.2.isEmpty

/-! ## gstr1_books.py : the reconcile partition -/

/-- The four buckets of GSTR1BooksReconciliation.reconcile.  Each bucket entry
keeps the representative record(s) the source stores a projection of; bucket
cardinalities coincide with the source lists.  The source key matches is a Lean
keyword, hence the field name matchesL. -/
structure GBResult where
  matchesL : List (InvRecord × InvRecord)
  mismatches : List (InvRecord × InvRecord × List FieldDiff)
  missing_in_books : List InvRecord
  missing_in_gstr1 : List InvRecord
deriving DecidableEq, Repr

/-- df[df.match_key == k].iloc[0] : the first record carrying key k. -/
def firstWithKey (ks : List (InvRecord × String)) (k : String) : Option InvRecord :=
  (ks.find? (fun p => p.2 == k)).map Prod.fst

/-- The body of reconcile once both match_key columns exist: key sets,
intersection and differences, one representative pair or record per key. -/
def buildResult (ka kb : List (InvRecord × String)) : GBResult :=
  let gstr1_keys := (ka.map Prod.snd).dedup
  let books_keys := (kb.map Prod.snd).dedup
  let common_keys := gstr1_keys.filter (fun k => decide (k ∈ books_keys))
  let only_in_gstr1 := gstr1_keys.filter (fun k => !(decide (k ∈ books_keys)))
  let only_in_books := books_keys.filter (fun k => !(decide (k ∈ gstr1_keys)))
  let paired := common_keys.filterMap (fun k =>
    match firstWithKey ka k, firstWithKey kb k with
    | some g, some b => some (g, b, recordDiffs g b)
    | _, _ => none)
  { matchesL := (paired.filter noDiffs).map (fun t => (t.1, t.2.1))
    mismatches := paired.filter (fun t => !(noDiffs t))
    missing_in_books := only_in_gstr1.filterMap (firstWithKey ka)
    missing_in_gstr1 := only_in_books.filterMap (firstWithKey kb) }

/-- GSTR1BooksReconciliation.reconcile: build both match_key columns (A first),
then partition.  A strftime failure propagates as the raised exception. -/
def gstr1BooksReconcile (A B : List InvRecord) : Except String GBResult :=
  match keyed A, keyed B with
  | .ok ka, .ok kb => .ok (buildResult ka kb)
  | .error e, _ => .error e
  | .ok _, .error e => .error e

/-! ## utils/data_processor.py : generic reconciliation -/

/-- A raw cell of a declared numeric column before preprocessing. -/
inductive RawCell
  | num (q : ℚ)
  | text (s : String)
  | blank
deriving DecidableEq, Repr

/-- data_processor.py line 150: pd.to_numeric(errors=coerce).fillna(0) — an
unparsable or missing numeric cell becomes 0. -/
def toNumericFillZero : RawCell → ℚ
  | .num q => q
  | .text _ => 0
  | .blank => 0

/-- A source row before preprocessing (join key plus the value cell). -/
structure RawRow where
  key : String
  rawValue : RawCell
deriving DecidableEq, Repr

/-- A preprocessed source row as generic_reconciliation consumes it. -/
structure GenRow where
  key : String
  value : ℚ
deriving DecidableEq, Repr

/-- data_processor.py preprocess_data, numeric-column step (lines 148-150). -/
def preprocessRow (r : RawRow) : GenRow :=
  ⟨r.key, toNumericFillZero r.rawValue⟩

/-- An input frame before preprocessing.  key_col and value_col record whether
the mapped key column and the mapped value column are present in the frame at
all: generic_reconciliation never checks this, it lets pandas raise. -/
structure RawFrame where
  key_col : Bool
  value_col : Bool
  rows : List RawRow
deriving DecidableEq, Repr

/-- A preprocessed frame as generic_reconciliation consumes it. -/
structure GenFrame where
  key_col : Bool
  value_col : Bool
  rows : List GenRow
deriving DecidableEq, Repr

/-- preprocess_data coerces cell values of the columns that are present (the
`if col in df.columns` guards); it never adds or removes a column. -/
def preprocessFrame (f : RawFrame) : GenFrame :=
  ⟨f.key_col, f.value_col, f.rows.map preprocessRow⟩

/-- The mapping configuration fields generic_reconciliation reads
(data_processor.py lines 160-163).  The mapping tables of config.py are flat
column-rename dicts carrying none of these entries, so reading them through
these accessors yields the empty configuration. -/
structure GenMapping where
  key_columns : List String
  source1_value_column : Option String
  source2_value_column : Option String
deriving DecidableEq, Repr

/-- config.py mapping tables seen through the key_columns / value_column
accessors of generic_reconciliation: all three entries are missing. -/
def flatMappingAsGeneric : GenMapping :=
  ⟨[], none, none⟩

/-- One row of the outer-join result frame of generic_reconciliation. -/
structure GenResultRow where
  key : String
  source1_value : ℚ
  source2_value : ℚ
  difference : ℚ
  percent_difference : ℚ
deriving DecidableEq, Repr

/-- data_processor.py lines 193-201: Percent_Difference is 0 when both values are
0, otherwise abs(Difference) divided by max(|s1|, |s2|) times 100 — there is no
floor at 1 in the denominator. -/
def genericPercent (s1 s2 : ℚ) : ℚ :=
  if s1 ≠ 0 ∨ s2 ≠ 0 then |s1 - s2| / max |s1| |s2| * 100 else 0

/-- One result row: fillna(0) on each side, then Difference and
Percent_Difference (data_processor.py lines 186-201). -/
def mkResultRow (key : String) (v1 v2 : Option ℚ) : GenResultRow :=
  let s1 := v1.getD 0
  let s2 := v2.getD 0
  ⟨key, s1, s2, s1 - s2, genericPercent s1 s2⟩

/-- pd.merge(how=outer) on the key columns: every A row pairs with every B row
of equal key; rows without a counterpart keep a missing (NaN) other side. -/
def outerJoin (df1 df2 : List GenRow) : List GenResultRow :=
  (df1.flatMap (fun r1 =>
    let ms := df2.filter (fun r2 => r2.key == r1.key)
    if ms.isEmpty then [mkResultRow r1.key (some r1.value) none]
    else ms.map (fun r2 => mkResultRow r1.key (some r1.value) (some r2.value))))
  ++ (df2.filter (fun r2 => !(df1.any (fun r1 => r1.key == r2.key)))).map
      (fun r2 => mkResultRow r2.key none (some r2.value))

/-- data_processor.py generic_reconciliation: raises ValueError when the key or
value column mapping entries are missing (lines 165-166), before any row is
processed.  After that nothing is guarded: pd.merge(on=key_columns) raises
KeyError when a key column is absent from either frame (line 177), and the
result accesses of Source1_Value / Source2_Value raise KeyError when the
renamed value column was absent from the respective input (lines 186-187, the
rename at lines 173-174 being a silent no-op on a missing column); the pandas
messages name the missing column, modelled here by the uniform "KeyError".
Only with the mapping valid and all mapped columns present does it perform the
outer join and difference computation. -/
def genericReconciliation (df1 df2 : GenFrame) (m : GenMapping) :
    Except String (List GenResultRow) :=
  if m.key_columns.isEmpty || m.source1_value_column.isNone
      || m.source2_value_column.isNone then
    .error "Missing key or value column mapping"
  else if !df1.key_col || !df2.key_col then
    .error "KeyError"
  else if !df1.value_col then
    .error "KeyError"
  else if !df2.value_col then
    .error "KeyError"
  else
    .ok (outerJoin df1.rows df2.rows)

/-! ## utils/data_processor.py : apply_thresholds -/

/-- The Status column values written by apply_thresholds. -/
inductive RowStatus
  | matched
  | mismatched
  | onlyInSource1
  | onlyInSource2
deriving DecidableEq, Repr

/-- data_processor.py lines 309-331 for one row.  Status starts as Matched, the
combined threshold mask sets Mismatched, and the null-or-zero masks overwrite
with Only in Source 1 / Only in Source 2 afterwards (the two masks are
disjoint, so assignment order does not matter).  Source values are Option to
model isna cells of a general result frame. -/
def applyThresholdsStatus (amt pct : ℚ) (s1 s2 : Option ℚ) (diff pctDiff : ℚ) :
    RowStatus :=
  let base : RowStatus :=
    if |diff| > amt ∧ pctDiff > pct * 100 then .mismatched else .matched
  let source1_null := s1.isNone || decide (s1 = some 0)
  let source2_null := s2.isNone || decide (s2 = some 0)
  if source2_null && !source1_null then .onlyInSource1
  else if source1_null && !source2_null then .onlyInSource2
  else base

/-- A generic result row with the Status column appended. -/
structure StatusRow where
  row : GenResultRow
  status : RowStatus
deriving DecidableEq, Repr

/-- apply_thresholds over one joined result row (both sides present after the
fillna of generic_reconciliation). -/
def applyThresholdsRow (amt pct : ℚ) (r : GenResultRow) : StatusRow :=
  ⟨r, applyThresholdsStatus amt pct (some r.source1_value) (some r.source2_value)
        r.difference r.percent_difference⟩

/-! ## utils/data_processor.py : process_reconciliation dispatch -/

/-- The ten reconciliation types of get_mapping_config (lines 88-99). -/
def supportedReconTypes : List String :=
  ["gstr1_books", "gstr2_books", "gstr3b_gstr1", "gstr3b_books",
   "itc_gstr3b_gstr2b", "itc_eligibility", "gstr1_eway", "gstr2_eway",
   "gstr1_einvoice", "turnover_recon"]

/-- get_mapping_config: the configured mapping table for a known type (a flat
column dict, hence empty through the generic accessors), none — the falsy empty
dict — for an unknown type. -/
def getMappingConfig (rt : String) : Option GenMapping :=
  if rt ∈ supportedReconTypes then some flatMappingAsGeneric else none

/-- data_processor.py process_reconciliation (lines 45-84): an unknown type
raises ValueError naming it; every dispatch branch funnels into
generic_reconciliation, whose mapping check may raise; only a fully built
result frame gets apply_thresholds applied and returned. -/
def processReconciliation (rt : String) (df1 df2 : GenFrame) (amt pct : ℚ) :
    Except String (List StatusRow) :=
  match getMappingConfig rt with
  | none => .error ("Invalid reconciliation type: " ++ rt)
  | some mc =>
    match genericReconciliation df1 df2 mc with
    | .error e => .error e
    | .ok rows => .ok (rows.map (applyThresholdsRow amt pct))

/-! ## Other variants: eway (np.isclose), einvoice, itc -/

/-- np.isclose(a, b, rtol, atol): |a - b| <= atol + rtol * |b|. -/
def npIsClose (a b rtol atol : ℚ) : Bool :=
  decide (|a - b| ≤ atol + rtol * |b|)

/-- gstr1_eway.py line 107 (identically gstr2_eway.py line 107): a numeric field
is flagged discrepant when np.isclose with rtol = PERCENTAGE_THRESHOLD and
atol = AMOUNT_THRESHOLD fails. -/
def ewayDiscrepant (g e : ℚ) : Bool :=
  !(npIsClose g e PERCENTAGE_THRESHOLD AMOUNT_THRESHOLD)

/-- gstr1_einvoice.py line 109: diff_percent = (diff / einvoice_value * 100) if
einvoice_value != 0 else np.inf.  none models np.inf. -/
def einvoiceDiffPercent (g e : ℚ) : Option ℚ :=
  if e ≠ 0 then some ((g - e) / e * 100) else none

/-- itc_reconcilation.py line 49: the same signed ratio against the GSTR-2B
value; none models np.inf. -/
def itcDiffPercent (g3 g2 : ℚ) : Option ℚ :=
  if g2 ≠ 0 then some ((g3 - g2) / g2 * 100) else none

/-- itc_reconcilation.py line 63: recorded as a discrepancy iff
abs(diff) > AMOUNT_THRESHOLD and abs(diff_percent) > PERCENTAGE_THRESHOLD —
the percentage value is compared against the raw fraction 0.01, not against
percentage_threshold * 100; abs(np.inf) exceeds any threshold. -/
def itcDiscrepant (g3 g2 : ℚ) : Bool :=
  decide (|g3 - g2| > AMOUNT_THRESHOLD) &&
    (match itcDiffPercent g3 g2 with
     | some p => decide (|p| > PERCENTAGE_THRESHOLD)
     | none => true)

/-! ## Spec-side definitions (for refinement comparisons only) -/

/-- Modelled from the spec wording, section 4.4: percent_diff =
abs_diff / max(|a|, |b|, 1) * 100.  Used only to compare the code against the
claimed formula. -/
def specPercentDiff (a b : ℚ) : ℚ :=
  |a - b| / max (max |a| |b|) 1 * 100

/-- Modelled from the spec wording, sections 3 and 4.4: a field is discrepant
iff abs_diff exceeds the amount threshold AND percent_diff (spec formula)
exceeds percentage_threshold * 100. -/
def specDiscrepant (amt pct a b : ℚ) : Prop :=
  |a - b| > amt ∧ specPercentDiff a b > pct * 100

/-! ## main.py : normalization and matching cascade -/

/-- keep exactly the characters the regex class A-Z0-9 keeps. -/
def isUpperAlnum (c : Char) : Bool :=
  ('A' ≤ c && c ≤ 'Z') || ('0' ≤ c && c ≤ '9')

/-- main.py line 286: the known invoice-number lead-ins removed by
normalize_invoice_num, in source order. -/
def knownLeadIns : List String :=
  ["INV", "INVOICE", "BILL", "SI", "TAX"]

/-- main.py lines 287-289: each lead-in is tested, in list order, against the
current character list and removed when it starts it. -/
def stripLeadIns (ps : List String) (s : List Char) : List Char :=
  ps.foldl (fun cur p => if p.toList.isPrefixOf cur then cur.drop p.length else cur) s

/-- main.py lines 275-295: normalize_invoice_num — uppercase, strip every
character outside A-Z0-9, remove the known lead-ins, and also produce the
digits-only variant.  Returns (clean_inv, num_only).  The string is handled as
its character list so that every step is structural. -/
def normalizeInvoiceNum (inv : String) : String × String :=
  let up := inv.toList.map Char.toUpper
  let clean := up.filter isUpperAlnum
  let clean := stripLeadIns knownLeadIns clean
  let numOnly := clean.filter (fun c => '0' ≤ c && c ≤ '9')
  (String.mk clean, String.mk numOnly)

/-- The norm_inv_num column value for an invoice number. -/
def normInv (s : String) : String := (normalizeInvoiceNum s).1

/-- The num_only column value for an invoice number. -/
def numOnly (s : String) : String := (normalizeInvoiceNum s).2

/-- One GSTR-2B record as assembled from the JSON (main.py lines 79-86). -/
structure B2BRow where
  gstin : String
  inv_num : String
  taxable_value : ℚ
  rate : ℚ
deriving DecidableEq, Repr

/-- One purchase-register row; idx is its pandas index label, which drop
operates on. -/
structure CsvRow where
  idx : Nat
  gstin : String
  inv_num : String
  taxable_value : ℚ
  rate : ℚ
deriving DecidableEq, Repr

/-- main.py line 313, strategy 1: exact GSTIN + invoice number. -/
def strat1 (pool : List CsvRow) (row : B2BRow) : List CsvRow :=
  pool.filter (fun c => c.gstin == row.gstin && c.inv_num == row.inv_num)

/-- main.py line 317, strategy 2: GSTIN + normalized invoice number. -/
def strat2 (pool : List CsvRow) (row : B2BRow) : List CsvRow :=
  pool.filter (fun c => c.gstin == row.gstin && normInv c.inv_num == normInv row.inv_num)

/-- main.py line 321, strategy 3: GSTIN + digits-only invoice number. -/
def strat3 (pool : List CsvRow) (row : B2BRow) : List CsvRow :=
  pool.filter (fun c => c.gstin == row.gstin && numOnly c.inv_num == numOnly row.inv_num)

/-- main.py line 331: the percentage distance used by the fuzzy scan, 100 when
the target taxable value is not positive. -/
def fuzzyPercentDiff (row : B2BRow) (c : CsvRow) : ℚ :=
  let diff := |c.taxable_value - row.taxable_value|
  if row.taxable_value > 0 then diff / row.taxable_value * 100 else 100

/-- main.py lines 324-336, strategy 4: scan the GSTIN-equal candidates in pool
order and take the first within 1 percent or within 10 currency units. -/
def strat4 (pool : List CsvRow) (row : B2BRow) : Option CsvRow :=
  (pool.filter (fun c => c.gstin == row.gstin)).find? (fun c =>
    decide (fuzzyPercentDiff row c < 1) ||
      decide (|c.taxable_value - row.taxable_value| < 10))

/-- Which strategy produced the candidate set. -/
inductive MatchStrategy
  | exact
  | normKey
  | numKey
  | fuzzy
deriving DecidableEq, Repr

/-- main.py lines 308-336: the cascade — each later strategy runs only while
match is still empty; strategy 3 additionally requires a nonempty num_only on
the target row; the fuzzy result is wrapped in a fresh single-row frame. -/
def selectMatch (pool : List CsvRow) (row : B2BRow) :
    Option (List CsvRow × MatchStrategy) :=
  match strat1 pool row with
  | c1 :: t1 => some (c1 :: t1, .exact)
  | [] =>
    match strat2 pool row with
    | c2 :: t2 => some (c2 :: t2, .normKey)
    | [] =>
      match (if numOnly row.inv_num = "" then [] else strat3 pool row) with
      | c3 :: t3 => some (c3 :: t3, .numKey)
      | [] =>
        match strat4 pool row with
        | some c => some ([c], .fuzzy)
        | none => none

/-! ## main.py : record assembly, consumption, loop, summary -/

/-- Python round to 2 decimal places (ties to even), idealized over Rat. -/
def roundHalfEven (q : ℚ) : ℤ :=
  if q - ⌊q⌋ = 1 / 2 then (if ⌊q⌋ % 2 = 0 then ⌊q⌋ else ⌊q⌋ + 1) else round q

/-- round(x, 2). -/
def pyRound2 (q : ℚ) : ℚ :=
  (roundHalfEven (q * 100) : ℚ) / 100

/-- main.py lines 354-359: a matched result record.  Its only marker is
exact_match — whether the two invoice numbers are literally equal; no field
records which strategy (normalized, digits-only, fuzzy) produced the match. -/
structure MatchedRec where
  gstin : String
  inv_num : String
  taxable_value : ℚ
  rate : ℚ
  csv_inv_num : String
  csv_taxable_value : ℚ
  exact_match : Bool
deriving DecidableEq, Repr

/-- main.py lines 363-370: a mismatched result record; it carries no strategy
marker at all. -/
structure MismatchedRec where
  gstin : String
  inv_num : String
  taxable_value : ℚ
  rate : ℚ
  csv_inv_num : String
  csv_taxable_value : ℚ
  csv_rate : ℚ
  diff_value : ℚ
  diff_percent : ℚ
deriving DecidableEq, Repr

/-- Assembly of one matched record (main.py lines 354-359). -/
def mkMatchedRec (row : B2BRow) (m : CsvRow) : MatchedRec :=
  ⟨row.gstin, row.inv_num, row.taxable_value, row.rate,
    m.inv_num, m.taxable_value, row.inv_num == m.inv_num⟩

/-- Assembly of one mismatched record (main.py lines 363-370). -/
def mkMismatchedRec (row : B2BRow) (m : CsvRow) (pctDiff : ℚ) : MismatchedRec :=
  ⟨row.gstin, row.inv_num, row.taxable_value, row.rate,
    m.inv_num, m.taxable_value, m.rate,
    pyRound2 (m.taxable_value - row.taxable_value), pyRound2 pctDiff⟩

/-- df_csv.drop(labels): drops the rows whose index label is listed, raising
KeyError when a label is not present. -/
def dropLabels (pool : List CsvRow) (ls : List Nat) : Except String (List CsvRow) :=
  if ls.all (fun l => pool.any (fun c => c.idx == l)) then
    .ok (pool.filter (fun c => !(ls.contains c.idx)))
  else .error "KeyError"

/-- The mutable state of the reconciliation loop of main.py. -/
structure MainState where
  matched : List MatchedRec
  mismatched : List MismatchedRec
  missing_in_csv : List B2BRow
  pool : List CsvRow
deriving DecidableEq, Repr

/-- main.py lines 338-372: handle one GSTR-2B row.  An empty match goes to
missing_in_csv; otherwise match.iloc[0] is compared (within 10 percent or 100
units, and rate equality with 0 as wildcard) and the match index labels are
dropped from df_csv.  For strategies 1-3 those labels are the candidate rows;
for the fuzzy strategy the match was rebuilt as pd.DataFrame([csv_row]) whose
fresh RangeIndex is [0], so label 0 of df_csv is dropped instead of the fuzzy
candidate.  The classification step (main.py lines 341-372) is split out as
classifyPair: compared within 10 percent or 100 units, rate equality with 0 as
wildcard; the consumed pool is whatever drop left. -/
def classifyPair (st : MainState) (row : B2BRow) (m : CsvRow)
    (pool1 : List CsvRow) : MainState :=
  let value_diff := |m.taxable_value - row.taxable_value|
  let value_percent_diff :=
    if row.taxable_value > 0 then value_diff / row.taxable_value * 100 else 100
  let value_matched := decide (value_percent_diff < 10) || decide (value_diff < 100)
  let rate_matched :=
    decide (m.rate = row.rate) || decide (row.rate = 0) || decide (m.rate = 0)
  if value_matched && rate_matched then
    { st with matched := st.matched ++ [mkMatchedRec row m], pool := pool1 }
  else
    { st with
      mismatched := st.mismatched ++ [mkMismatchedRec row m value_percent_diff]
      pool := pool1 }

def processRow (st : MainState) (row : B2BRow) : Except String MainState :=
  match selectMatch st.pool row with
  | none => .ok { st with missing_in_csv := st.missing_in_csv ++ [row] }
  | some (match_rows, strat) =>
    match match_rows with
    | [] => .ok { st with missing_in_csv := st.missing_in_csv ++ [row] }
    | m :: _ =>
      let labels := if strat = .fuzzy then [0] else match_rows.map (fun c => c.idx)
      match dropLabels st.pool labels with
      | .error e => .error e
      | .ok pool1 => .ok (classifyPair st row m pool1)

/-- The for-loop over df_2b rows. -/
def mainLoop : MainState → List B2BRow → Except String MainState
  | st, [] => .ok st
  | st, r :: rs =>
    match processRow st r with
    | .ok st1 => mainLoop st1 rs
    | .error e => .error e

/-- main.py lines 381-388: the summary block. -/
structure MainSummary where
  total_invoices : Nat
  matched_count : Nat
  mismatched_count : Nat
  missing_in_csv_count : Nat
  missing_in_json_count : Nat
  match_percentage : ℚ
deriving DecidableEq, Repr

/-- The full output of the Streamlit reconciliation. -/
structure MainResult where
  matched : List MatchedRec
  mismatched : List MismatchedRec
  missing_in_csv : List B2BRow
  missing_in_json : List CsvRow
  summary : MainSummary
deriving DecidableEq, Repr

/-- main.py lines 302-388: run the loop, collect the leftover df_csv rows as
missing_in_json, and compute the summary.  total_invoices is taken from
len(df_2b) plus the length of df_csv AFTER the loop consumed matched rows
(line 378). -/
def runMainRecon (df2b : List B2BRow) (dfcsv : List CsvRow) :
    Except String MainResult :=
  match mainLoop ⟨[], [], [], dfcsv⟩ df2b with
  | .error e => .error e
  | .ok st =>
    let missing_in_json := st.pool
    let total_invoices := df2b.length + st.pool.length
    let match_percentage : ℚ :=
      if total_invoices > 0 then
        pyRound2 ((st.matched.length : ℚ) / (total_invoices : ℚ) * 100)
      else 0
    .ok ⟨st.matched, st.mismatched, st.missing_in_csv, missing_in_json,
      ⟨total_invoices, st.matched.length, st.mismatched.length,
        st.missing_in_csv.length, missing_in_json.length, match_percentage⟩⟩

/-! ## List helper lemmas -/

theorem length_filter_partition {α : Type} (l : List α) (p : α → Bool) :
    (l.filter p).length + (l.filter (fun a => !(p a))).length = l.length := by
  induction l with
  | nil => rfl
  | cons a t ih =>
    cases h : p a <;> simp [List.filter_cons, h] <;> omega

theorem length_filterMap_of_isSome {α β : Type} (l : List α) (f : α → Option β)
    (h : ∀ a ∈ l, (f a).isSome) : (l.filterMap f).length = l.length := by
  induction l with
  | nil => rfl
  | cons a t ih =>
    have ha := h a (List.mem_cons_self a t)
    obtain ⟨b, hb⟩ := Option.isSome_iff_exists.mp ha
    rw [List.filterMap_cons, hb]
    simp [ih (fun x hx => h x (List.mem_cons_of_mem a hx))]

theorem length_filter_mem_comm (l₁ l₂ : List String) (h₁ : l₁.Nodup) (h₂ : l₂.Nodup) :
    (l₁.filter (fun k => decide (k ∈ l₂))).length
      = (l₂.filter (fun k => decide (k ∈ l₁))).length := by
  have e₁ : (l₁.filter (fun k => decide (k ∈ l₂))).toFinset
      = l₁.toFinset ∩ l₂.toFinset := by
    ext a
    simp [List.mem_filter]
  have e₂ : (l₂.filter (fun k => decide (k ∈ l₁))).toFinset
      = l₂.toFinset ∩ l₁.toFinset := by
    ext a
    simp [List.mem_filter, and_comm]
  have n₁ : (l₁.filter (fun k => decide (k ∈ l₂))).Nodup := h₁.filter _
  have n₂ : (l₂.filter (fun k => decide (k ∈ l₁))).Nodup := h₂.filter _
  rw [← List.toFinset_card_of_nodup n₁, ← List.toFinset_card_of_nodup n₂, e₁, e₂,
    Finset.inter_comm]

theorem firstWithKey_isSome (ks : List (InvRecord × String)) (k : String)
    (h : k ∈ ks.map Prod.snd) : (firstWithKey ks k).isSome := by
  rcases List.mem_map.mp h with ⟨p, hp, hpk⟩
  unfold firstWithKey
  rw [Option.isSome_map']
  exact List.find?_isSome.mpr ⟨p, hp, by simp [hpk]⟩

theorem keyed_length : ∀ {rs : List InvRecord} {ks : List (InvRecord × String)},
    keyed rs = .ok ks → ks.length = rs.length := by
  intro rs
  induction rs with
  | nil => intro ks h; cases h; rfl
  | cons r t ih =>
    intro ks h
    unfold keyed at h
    cases hk : matchKey r with
    | error e => rw [hk] at h; cases h
    | ok key =>
      rw [hk] at h
      cases ht : keyed t with
      | error e => rw [ht] at h; cases h
      | ok ks' =>
        rw [ht] at h
        cases h
        simp [ih ht]

theorem keysOf_ok {rs : List InvRecord} {kl : List String} (h : keysOf rs = .ok kl) :
    ∃ ks, keyed rs = .ok ks ∧ ks.map Prod.snd = kl := by
  unfold keysOf at h
  cases hk : keyed rs with
  | ok ks =>
    rw [hk] at h
    exact ⟨ks, rfl, by injection h⟩
  | error e => rw [hk] at h; cases h

theorem buildResult_counts (ka kb : List (InvRecord × String))
    (hA : (ka.map Prod.snd).Nodup) (hB : (kb.map Prod.snd).Nodup) :
    2 * (buildResult ka kb).matchesL.length + 2 * (buildResult ka kb).mismatches.length
      + (buildResult ka kb).missing_in_gstr1.length
      + (buildResult ka kb).missing_in_books.length
      = ka.length + kb.length := by
  unfold buildResult
  rw [List.dedup_eq_self.mpr hA, List.dedup_eq_self.mpr hB]
  set kaK := ka.map Prod.snd with hkaK
  set kbK := kb.map Prod.snd with hkbK
  simp only
  set pairFn : String → Option (InvRecord × InvRecord × List FieldDiff) :=
    (fun k =>
      match firstWithKey ka k, firstWithKey kb k with
      | some g, some b => some (g, b, recordDiffs g b)
      | _, _ => none) with hpairFn
  have hpair : ∀ k ∈ kaK.filter (fun k => decide (k ∈ kbK)), (pairFn k).isSome := by
    intro k hk
    rcases List.mem_filter.mp hk with ⟨hka, hkb⟩
    have hkb' : k ∈ kbK := of_decide_eq_true hkb
    obtain ⟨g, hg⟩ := Option.isSome_iff_exists.mp (firstWithKey_isSome ka k hka)
    obtain ⟨b, hb⟩ := Option.isSome_iff_exists.mp (firstWithKey_isSome kb k hkb')
    rw [hpairFn]
    simp [hg, hb]
  have lenPaired :
      ((kaK.filter (fun k => decide (k ∈ kbK))).filterMap pairFn).length
        = (kaK.filter (fun k => decide (k ∈ kbK))).length :=
    length_filterMap_of_isSome _ _ hpair
  have lenMissB :
      ((kaK.filter (fun k => !(decide (k ∈ kbK)))).filterMap (firstWithKey ka)).length
        = (kaK.filter (fun k => !(decide (k ∈ kbK)))).length := by
    refine length_filterMap_of_isSome _ _ ?_
    intro k hk
    exact firstWithKey_isSome ka k (List.mem_filter.mp hk).1
  have lenMissA :
      ((kbK.filter (fun k => !(decide (k ∈ kaK)))).filterMap (firstWithKey kb)).length
        = (kbK.filter (fun k => !(decide (k ∈ kaK)))).length := by
    refine length_filterMap_of_isSome _ _ ?_
    intro k hk
    exact firstWithKey_isSome kb k (List.mem_filter.mp hk).1
  have splitPaired :
      (((kaK.filter (fun k => decide (k ∈ kbK))).filterMap pairFn).filter noDiffs).length
        + (((kaK.filter (fun k => decide (k ∈ kbK))).filterMap pairFn).filter
            (fun t => !(noDiffs t))).length
        = ((kaK.filter (fun k => decide (k ∈ kbK))).filterMap pairFn).length :=
    length_filter_partition _ noDiffs
  have partA := length_filter_partition kaK (fun k => decide (k ∈ kbK))
  have partB := length_filter_partition kbK (fun k => decide (k ∈ kaK))
  have comm := length_filter_mem_comm kaK kbK hA hB
  have lenA : kaK.length = ka.length := by simp [hkaK]
  have lenB : kbK.length = kb.length := by simp [hkbK]
  simp only [List.length_map]
  omega

/-! ## Claim C1 : partition completeness -/

/-- C1 counterexample input: two GSTR-1 records sharing one match key. -/
def c1recA1 : InvRecord := ⟨"INV001", some ⟨2024, 4, 1⟩, "29G", [("Invoice Value", some 100)]⟩

/-- C1 counterexample input: a second GSTR-1 record with the same key fields. -/
def c1recA2 : InvRecord := ⟨"INV001", some ⟨2024, 4, 1⟩, "29G", [("Invoice Value", some 200)]⟩

/-- C1 counterexample input: the single Books record with that key. -/
def c1recB1 : InvRecord := ⟨"INV001", some ⟨2024, 4, 1⟩, "29G", [("Invoice Value", some 100)]⟩

/-- C1 is false as stated: with duplicate match keys the buckets are built per
key with one representative record each (df[...].iloc[0]), so on tables of 2
and 1 records sharing one key the totals give 2*1 + 0 + 0 + 0 = 2, not
|A| + |B| = 3 — the second A record is silently dropped from every bucket. -/
theorem c1_counterexample :
    (gstr1BooksReconcile [c1recA1, c1recA2] [c1recB1]).map
        (fun res => 2 * res.matchesL.length + 2 * res.mismatches.length
          + res.missing_in_gstr1.length + res.missing_in_books.length)
      = .ok 2
    ∧ [c1recA1, c1recA2].length + [c1recB1].length = 3
    ∧ 2 ≠ 3 := by
  refine ⟨?_, by decide, by decide⟩
  simp [gstr1BooksReconcile, keyed, matchKey, gstr1SideMatchKey, strftimeYMD, pad2, pad4,
    buildResult, firstWithKey, recordDiffs, value_columns, lookupVal, fieldCheck,
    gstr1BooksPercent, noDiffs, c1recA1, c1recA2, c1recB1,
    AMOUNT_THRESHOLD, PERCENTAGE_THRESHOLD, List.dedup, Except.map]

/-- C1 amended: when every record keys successfully and the match keys are
unique within each input table, the reconcile call succeeds and the four
buckets count every input record exactly once, matched pairs counting for both
sides: 2|matches| + 2|mismatches| + |missing_in_gstr1| + |missing_in_books|
= |A| + |B|. -/
theorem c1_partition_unique_keys (A B : List InvRecord) (kA kB : List String)
    (hA : keysOf A = .ok kA) (hB : keysOf B = .ok kB)
    (hAn : kA.Nodup) (hBn : kB.Nodup) :
    ∃ res, gstr1BooksReconcile A B = .ok res ∧
      2 * res.matchesL.length + 2 * res.mismatches.length
        + res.missing_in_gstr1.length + res.missing_in_books.length
        = A.length + B.length := by
  obtain ⟨ka, hka, hkaK⟩ := keysOf_ok hA
  obtain ⟨kb, hkb, hkbK⟩ := keysOf_ok hB
  refine ⟨buildResult ka kb, ?_, ?_⟩
  · unfold gstr1BooksReconcile
    rw [hka, hkb]
  · have := buildResult_counts ka kb (by rw [hkaK]; exact hAn) (by rw [hkbK]; exact hBn)
    rw [keyed_length hka, keyed_length hkb] at this
    exact this

/-- C1 witness inputs: one record per side, distinct keys within each side. -/
def c1recW1 : InvRecord := ⟨"W1", some ⟨2024, 5, 2⟩, "07A", [("Cess", some 10)]⟩

/-- C1 witness input on the Books side. -/
def c1recW2 : InvRecord := ⟨"W2", some ⟨2024, 5, 3⟩, "07A", [("Cess", some 10)]⟩

/-- Witness: the amended partition equation holds on a concrete pair of
single-record tables with unique keys. -/
theorem c1_partition_unique_keys_witness :
    keysOf [c1recW1] = .ok ["W1_2024-05-02_07A"]
    ∧ keysOf [c1recW2] = .ok ["W2_2024-05-03_07A"]
    ∧ ∃ res, gstr1BooksReconcile [c1recW1] [c1recW2] = .ok res ∧
        2 * res.matchesL.length + 2 * res.mismatches.length
          + res.missing_in_gstr1.length + res.missing_in_books.length
          = [c1recW1].length + [c1recW2].length :=
  ⟨by rfl, by rfl,
    c1_partition_unique_keys [c1recW1] [c1recW2]
      ["W1_2024-05-02_07A"] ["W2_2024-05-03_07A"]
      (by rfl) (by rfl) (by decide) (by decide)⟩

/-! ## Claim C2 : threshold AND-semantics -/

theorem gstr1BooksPercent_eq_spec (a b : ℚ) :
    gstr1BooksPercent a b = specPercentDiff a b := by
  unfold gstr1BooksPercent specPercentDiff
  by_cases h : max |a| |b| > 0
  · rw [if_pos h]
  · rw [if_neg h]
    push_neg at h
    have ha : |a| = 0 := le_antisymm (le_trans (le_max_left _ _) h) (abs_nonneg a)
    have hb : |b| = 0 := le_antisymm (le_trans (le_max_right _ _) h) (abs_nonneg b)
    have ha' : a = 0 := abs_eq_zero.mp ha
    have hb' : b = 0 := abs_eq_zero.mp hb
    subst ha'
    subst hb'
    norm_num

theorem fieldCheck_isSome (f : String) (g b : ℚ) :
    (fieldCheck f g b).isSome
      = (decide (|g - b| > AMOUNT_THRESHOLD)
          && decide (specPercentDiff g b > PERCENTAGE_THRESHOLD * 100)) := by
  unfold fieldCheck
  rw [← gstr1BooksPercent_eq_spec]
  by_cases h1 : |g - b| > AMOUNT_THRESHOLD
  · by_cases h2 : gstr1BooksPercent g b > PERCENTAGE_THRESHOLD * 100
    · simp [h1, h2]
    · simp [h1, h2]
  · simp [h1]

/-- C2 is false as stated: in the ITC variant the recorded percentage is
compared against the raw fraction 0.01 instead of percentage_threshold * 100.
At gstr3b = 402, gstr2b = 400 the difference is 2 (above the amount threshold)
with a 0.5 percent relative difference, so the claimed AND-condition rejects
it, yet the code flags it as a discrepancy. -/
theorem c2_counterexample :
    itcDiscrepant 402 400 = true
    ∧ ¬ specDiscrepant AMOUNT_THRESHOLD PERCENTAGE_THRESHOLD 402 400 := by
  constructor
  · norm_num [itcDiscrepant, itcDiffPercent, AMOUNT_THRESHOLD, PERCENTAGE_THRESHOLD,
      abs_of_pos]
  · intro h
    have := h.2
    norm_num [specPercentDiff, AMOUNT_THRESHOLD, PERCENTAGE_THRESHOLD] at this

/-- C2 amended: the AND-semantics with the spec percentage formula holds in the
gstr1_books differ; the eway/einvoice variants instead flag through np.isclose,
i.e. exactly when |a - b| exceeds atol + rtol * |b|; and the ITC variant flags
only under its own AND-condition whose percentage side is |diff / b * 100| >
percentage_threshold (the raw fraction), so its flag still implies the amount
threshold was exceeded but not the claimed relative condition. -/
theorem c2_and_semantics_by_variant :
    (∀ (f : String) (g b : ℚ),
        (fieldCheck f g b).isSome
          = (decide (|g - b| > AMOUNT_THRESHOLD)
              && decide (specPercentDiff g b > PERCENTAGE_THRESHOLD * 100)))
    ∧ (∀ g e : ℚ,
        ewayDiscrepant g e
          = decide (|g - e| > AMOUNT_THRESHOLD + PERCENTAGE_THRESHOLD * |e|))
    ∧ (∀ g3 g2 : ℚ, itcDiscrepant g3 g2 = true →
        |g3 - g2| > AMOUNT_THRESHOLD
          ∧ (g2 ≠ 0 → |(g3 - g2) / g2 * 100| > PERCENTAGE_THRESHOLD)) := by
  refine ⟨fieldCheck_isSome, ?_, ?_⟩
  · intro g e
    unfold ewayDiscrepant npIsClose
    rw [← decide_not]
    exact decide_eq_decide.mpr not_le
  · intro g3 g2 h
    unfold itcDiscrepant itcDiffPercent at h
    by_cases hg2 : g2 ≠ 0
    · rw [if_pos hg2] at h
      simp only [Bool.and_eq_true, decide_eq_true_eq] at h
      exact ⟨h.1, fun _ => h.2⟩
    · rw [if_neg hg2] at h
      simp only [Bool.and_eq_true, decide_eq_true_eq] at h
      exact ⟨h.1, fun hc => absurd hc hg2⟩

/-- Witness for the amended C2 statements at concrete values: the gstr1_books
check flags 103 vs 100 (both thresholds exceeded), the eway check is the
np.isclose complement at the same values, and the flagged ITC pair 402 vs 400
satisfies the ITC-specific conditions. -/
theorem c2_and_semantics_witness :
    (fieldCheck "Cess" 103 100).isSome = true
    ∧ ewayDiscrepant 103 100 = true
    ∧ itcDiscrepant 402 400 = true
    ∧ (|(402 : ℚ) - 400| > AMOUNT_THRESHOLD
        ∧ ((400 : ℚ) ≠ 0 → |((402 : ℚ) - 400) / 400 * 100| > PERCENTAGE_THRESHOLD)) := by
  have hitc : itcDiscrepant 402 400 = true := by
    norm_num [itcDiscrepant, itcDiffPercent, AMOUNT_THRESHOLD, PERCENTAGE_THRESHOLD,
      abs_of_pos]
  refine ⟨?_, ?_, hitc, c2_and_semantics_by_variant.2.2 402 400 hitc⟩
  · rw [c2_and_semantics_by_variant.1 "Cess" 103 100]
    norm_num [specPercentDiff, AMOUNT_THRESHOLD, PERCENTAGE_THRESHOLD]
  · rw [c2_and_semantics_by_variant.2.1 103 100]
    norm_num [AMOUNT_THRESHOLD, PERCENTAGE_THRESHOLD]

/-! ## Claim C3 : the percentage formula -/

/-- C3 is false as stated: generic_reconciliation divides by max(|s1|, |s2|)
without the floor at 1, so at s1 = 1/2, s2 = 0 it reports 100 where the claimed
formula gives 50; and the einvoice variant divides by the e-invoice value
alone, producing np.inf (modelled none) at e = 0 where the claimed formula
gives the finite value 100. -/
theorem c3_counterexample :
    genericPercent (1/2) 0 = 100
    ∧ specPercentDiff (1/2) 0 = 50
    ∧ (100 : ℚ) ≠ 50
    ∧ einvoiceDiffPercent 5 0 = none
    ∧ specPercentDiff 5 0 = 100 := by
  refine ⟨?_, ?_, by norm_num, ?_, ?_⟩
  · norm_num [genericPercent]
  · norm_num [specPercentDiff, abs_of_pos, sup_eq_max, max_def]
  · simp [einvoiceDiffPercent]
  · norm_num [specPercentDiff, abs_of_pos, sup_eq_max, max_def]

/-- C3 amended: the claimed formula abs_diff / max(|a|, |b|, 1) * 100 is the one
computed by the gstr1_books differ (its extra guard for max = 0 coincides with
the floored formula), but not by the generic or einvoice/eway/itc variants. -/
theorem c3_gstr1_books_percent_formula (a b : ℚ) :
    gstr1BooksPercent a b = specPercentDiff a b :=
  gstr1BooksPercent_eq_spec a b

/-! ## Claim C4 : match-key determinism -/

/-- C4 is false as stated: the primary key builder concatenates the raw field
values; it neither uppercases nor trims, so invoice numbers differing only in
case produce different match keys. -/
theorem c4_counterexample :
    gstr1SideMatchKey "inv001" ⟨2024, 4, 1⟩ "29ABCDE1234F1Z5"
      ≠ gstr1SideMatchKey "INV001" ⟨2024, 4, 1⟩ "29ABCDE1234F1Z5" := by
  decide

/-- C4 amended: the two sides build the key with the same function (raw
concatenation with the date rendered through strftime %Y-%m-%d), so records
with byte-identical key-field values get the same key regardless of source;
casing or whitespace variants are not normalized away. -/
theorem c4_raw_key_source_independent (inv : String) (dt : YMD) (gstin : String) :
    gstr1SideMatchKey inv dt gstin = booksSideMatchKey inv dt gstin := rfl

/-! ## Claim C5 : data-quality issues and aborts -/

/-- C5 counterexample input: a GSTR-1 record whose invoice date failed to parse
(NaT). -/
def c5badRec : InvRecord := ⟨"I1", none, "G", []⟩

/-- C5 is false as stated: in the gstr1_books class path an unparsable invoice
date (coerced to NaT by load_data) makes the match-key strftime raise, so the
reconcile call aborts instead of completing with a degraded result. -/
theorem c5_counterexample :
    gstr1BooksReconcile [c5badRec] [] = .error "NaTType does not support strftime" := by
  decide

/-- C5 amended: unparsable cell values never abort the generic data_processor
path — preprocessing coerces them (numeric to 0) and generic_reconciliation
returns a full result whenever the mapping is valid and every mapped column is
present in both frames; but "missing column" is itself fatal there: a mapped
key or value column absent from an input frame raises KeyError in pd.merge or
in the Source-value accesses, with nothing recovered. -/
theorem c5_value_coercion_vs_missing_column :
    (∀ (raw1 raw2 : RawFrame) (m : GenMapping),
        m.key_columns ≠ [] → m.source1_value_column ≠ none →
        m.source2_value_column ≠ none →
        raw1.key_col = true → raw2.key_col = true →
        raw1.value_col = true → raw2.value_col = true →
        genericReconciliation (preprocessFrame raw1) (preprocessFrame raw2) m
          = .ok (outerJoin (raw1.rows.map preprocessRow) (raw2.rows.map preprocessRow)))
    ∧ (∀ (df1 df2 : GenFrame) (m : GenMapping),
        m.key_columns ≠ [] → m.source1_value_column ≠ none →
        m.source2_value_column ≠ none →
        (df1.key_col = false ∨ df2.key_col = false ∨ df1.value_col = false
          ∨ df2.value_col = false) →
        genericReconciliation df1 df2 m = .error "KeyError") := by
  constructor
  · intro raw1 raw2 m hk h1 h2 hc1 hc2 hv1 hv2
    have hcond : (m.key_columns.isEmpty || m.source1_value_column.isNone
        || m.source2_value_column.isNone) = false := by
      simp [List.isEmpty_iff, Option.isNone_iff_eq_none, Option.isSome_iff_ne_none,
        hk, h1, h2]
    simp [genericReconciliation, preprocessFrame, hcond, hc1, hc2, hv1, hv2]
  · intro df1 df2 m hk h1 h2 hbad
    have hcond : (m.key_columns.isEmpty || m.source1_value_column.isNone
        || m.source2_value_column.isNone) = false := by
      simp [List.isEmpty_iff, Option.isNone_iff_eq_none, Option.isSome_iff_ne_none,
        hk, h1, h2]
    cases hk1 : df1.key_col <;> cases hk2 : df2.key_col <;>
      cases hw1 : df1.value_col <;> cases hw2 : df2.value_col <;>
        simp_all [genericReconciliation, hcond]

/-- C5 witness frame 1, with its columns present, holding an unparsable text
cell and a blank cell. -/
def c5rawT1 : RawFrame := ⟨true, true, [⟨"K1", .text "abc"⟩, ⟨"K2", .blank⟩]⟩

/-- C5 witness frame 2, with its columns present. -/
def c5rawT2 : RawFrame := ⟨true, true, [⟨"K1", .num 5⟩]⟩

/-- C5 witness frame lacking its mapped value column. -/
def c5frameNoVal : GenFrame := ⟨true, false, []⟩

/-- C5 witness mapping with all required entries present. -/
def c5map : GenMapping := ⟨["key"], some "V1", some "V2"⟩

/-- Witness: on frames containing unparsable and missing numeric cells the
generic reconciliation completes with a result, while a frame lacking its
mapped value column aborts with KeyError. -/
theorem c5_value_coercion_vs_missing_column_witness :
    genericReconciliation (preprocessFrame c5rawT1) (preprocessFrame c5rawT2) c5map
        = .ok (outerJoin (c5rawT1.rows.map preprocessRow) (c5rawT2.rows.map preprocessRow))
    ∧ genericReconciliation c5frameNoVal (preprocessFrame c5rawT2) c5map
        = .error "KeyError" :=
  ⟨c5_value_coercion_vs_missing_column.1 c5rawT1 c5rawT2 c5map
      (by decide) (by decide) (by decide) (by decide) (by decide) (by decide) (by decide),
    c5_value_coercion_vs_missing_column.2 c5frameNoVal (preprocessFrame c5rawT2) c5map
      (by decide) (by decide) (by decide) (Or.inr (Or.inr (Or.inl (by decide))))⟩

/-! ## Claim C6 : configuration errors are fatal -/

/-- C6 confirmed: an unknown reconciliation type raises ValueError naming the
type before any data is touched, and a mapping missing the required key or
value column entries makes generic_reconciliation raise its ValueError before
any row is joined; in both cases the call returns the raised error and no
partial result (the return type carries either an error or a complete result,
never both). -/
theorem c6_config_error_fatal (rt : String) (df1 df2 : GenFrame) (amt pct : ℚ) :
    (getMappingConfig rt = none →
        processReconciliation rt df1 df2 amt pct
          = .error ("Invalid reconciliation type: " ++ rt))
    ∧ (∀ mc, getMappingConfig rt = some mc →
        (mc.key_columns = [] ∨ mc.source1_value_column = none
            ∨ mc.source2_value_column = none) →
        processReconciliation rt df1 df2 amt pct
          = .error "Missing key or value column mapping") := by
  constructor
  · intro h
    unfold processReconciliation
    rw [h]
  · intro mc hmc hbad
    have hgen : genericReconciliation df1 df2 mc
        = .error "Missing key or value column mapping" := by
      unfold genericReconciliation
      rcases hbad with h | h | h <;> simp [h]
    simp [processReconciliation, hmc, hgen]

/-- Witness: the invalid type bogus is rejected with the naming error, and a
known type read through the generic accessors (whose entries are all missing in
the flat config dicts) is rejected with the mapping error. -/
theorem c6_config_error_fatal_witness :
    getMappingConfig "bogus" = none
    ∧ processReconciliation "bogus" ⟨true, true, []⟩ ⟨true, true, []⟩ 1 (1/100)
        = .error "Invalid reconciliation type: bogus"
    ∧ getMappingConfig "gstr1_books" = some flatMappingAsGeneric
    ∧ processReconciliation "gstr1_books" ⟨true, true, []⟩ ⟨true, true, []⟩ 1 (1/100)
        = .error "Missing key or value column mapping" :=
  ⟨by decide,
    (c6_config_error_fatal "bogus" ⟨true, true, []⟩ ⟨true, true, []⟩ 1 (1/100)).1 (by decide),
    by decide,
    (c6_config_error_fatal "gstr1_books" ⟨true, true, []⟩ ⟨true, true, []⟩ 1 (1/100)).2
      flatMappingAsGeneric (by decide) (Or.inl (by decide))⟩

/-! ## Claim C10 : apply_thresholds buckets by value magnitude -/

/-- C10 confirmed: apply_thresholds decides the Only-in buckets purely from the
value columns — whenever one side is missing or 0 and the other side is a
present nonzero value, the row status becomes Only in Source 1 (resp. 2),
overwriting any Matched or Mismatched classification made from the thresholds;
key presence plays no role (the function has no key input). -/
theorem c10_status_by_value_not_key (amt pct : ℚ) (s1 s2 : Option ℚ) (d p : ℚ) :
    ((s2 = none ∨ s2 = some 0) → s1 ≠ none → s1 ≠ some 0 →
        applyThresholdsStatus amt pct s1 s2 d p = .onlyInSource1)
    ∧ ((s1 = none ∨ s1 = some 0) → s2 ≠ none → s2 ≠ some 0 →
        applyThresholdsStatus amt pct s1 s2 d p = .onlyInSource2) := by
  constructor
  · intro h2 h1n h1z
    have hs2 : (s2.isNone || decide (s2 = some 0)) = true := by
      rcases h2 with h | h <;> simp [h]
    have hs1 : (s1.isNone || decide (s1 = some 0)) = false := by
      simp [Option.isNone_iff_eq_none, Option.isSome_iff_ne_none, h1n, h1z]
    unfold applyThresholdsStatus
    simp [hs1, hs2]
  · intro h1 h2n h2z
    have hs1 : (s1.isNone || decide (s1 = some 0)) = true := by
      rcases h1 with h | h <;> simp [h]
    have hs2 : (s2.isNone || decide (s2 = some 0)) = false := by
      simp [Option.isNone_iff_eq_none, Option.isSome_iff_ne_none, h2n, h2z]
    unfold applyThresholdsStatus
    simp [hs1, hs2]

/-- Witness: a row whose source-2 value is a true zero while source 1 holds 500
— the threshold masks classify it Mismatched (500 > 1 and 100 > 1), yet the
status is overridden to Only in Source 1. -/
theorem c10_status_by_value_not_key_witness :
    (|(500 : ℚ)| > 1 ∧ (100 : ℚ) > (1/100) * 100)
    ∧ applyThresholdsStatus 1 (1/100) (some 500) (some 0) 500 100 = .onlyInSource1 :=
  ⟨by norm_num [abs_of_pos],
    (c10_status_by_value_not_key 1 (1/100) (some 500) (some 0) 500 100).1
      (Or.inr rfl) (by simp) (by norm_num)⟩

/-! ## Claim C7 : fallback strategies tried in fixed order -/

/-- C7 confirmed: the cascade tries exact key, then normalized-text key, then
digits-only key (the last also requiring a nonempty digits-only target key),
then the fuzzy scan; whenever a match is returned by a fallback strategy every
earlier strategy had produced no candidate on that record. -/
theorem selectMatch_elim (pool : List CsvRow) (row : B2BRow)
    (rows : List CsvRow) (st : MatchStrategy)
    (h : selectMatch pool row = some (rows, st)) :
    (st = .exact ∧ rows = strat1 pool row ∧ strat1 pool row ≠ [])
    ∨ (st = .normKey ∧ rows = strat2 pool row ∧ strat1 pool row = [])
    ∨ (st = .numKey ∧ strat1 pool row = [] ∧ strat2 pool row = [])
    ∨ (st = .fuzzy ∧ strat1 pool row = [] ∧ strat2 pool row = []
        ∧ (numOnly row.inv_num ≠ "" → strat3 pool row = [])
        ∧ ∃ c, rows = [c] ∧ strat4 pool row = some c) := by
  unfold selectMatch at h
  split at h
  next c1 t1 heq1 =>
    cases h
    exact Or.inl ⟨rfl, heq1.symm, by simp [heq1]⟩
  next heq1 =>
    split at h
    next c2 t2 heq2 =>
      cases h
      exact Or.inr (Or.inl ⟨rfl, heq2.symm, heq1⟩)
    next heq2 =>
      split at h
      next c3 t3 heq3 =>
        cases h
        exact Or.inr (Or.inr (Or.inl ⟨rfl, heq1, heq2⟩))
      next heq3 =>
        split at h
        next c heq4 =>
          cases h
          refine Or.inr (Or.inr (Or.inr ⟨rfl, heq1, heq2, ?_, c, rfl, heq4⟩))
          intro hnum
          rw [if_neg hnum] at heq3
          exact heq3
        next heq4 => cases h

/-- C7 confirmed: the cascade tries exact key, then normalized-text key, then
digits-only key (the last also requiring a nonempty digits-only target key),
then the fuzzy scan; whenever a match is returned by a fallback strategy every
earlier strategy had produced no candidate on that record, and when the exact
strategy has candidates they are the returned match. -/
theorem c7_fallback_order (pool : List CsvRow) (row : B2BRow)
    (rows : List CsvRow) (st : MatchStrategy)
    (h : selectMatch pool row = some (rows, st)) :
    (strat1 pool row ≠ [] → st = .exact ∧ rows = strat1 pool row)
    ∧ (st = .normKey → strat1 pool row = [] ∧ rows = strat2 pool row)
    ∧ (st = .numKey → strat1 pool row = [] ∧ strat2 pool row = [])
    ∧ (st = .fuzzy → strat1 pool row = [] ∧ strat2 pool row = []
        ∧ (numOnly row.inv_num ≠ "" → strat3 pool row = [])) := by
  rcases selectMatch_elim pool row rows st h with
    ⟨hst, hr, hne⟩ | ⟨hst, hr, h1⟩ | ⟨hst, h1, h2⟩ | ⟨hst, h1, h2, h3, _⟩
  · subst hst
    refine ⟨fun _ => ⟨rfl, hr⟩, ?_, ?_, ?_⟩ <;> intro hc <;> exact absurd hc (by decide)
  · subst hst
    refine ⟨fun hc => absurd h1 hc, fun _ => ⟨h1, hr⟩, ?_, ?_⟩ <;>
      intro hc <;> exact absurd hc (by decide)
  · subst hst
    refine ⟨fun hc => absurd h1 hc, ?_, fun _ => ⟨h1, h2⟩, ?_⟩ <;>
      intro hc <;> exact absurd hc (by decide)
  · subst hst
    refine ⟨fun hc => absurd h1 hc, ?_, ?_, fun _ => ⟨h1, h2, h3⟩⟩ <;>
      intro hc <;> exact absurd hc (by decide)

set_option maxRecDepth 8000 in
/-- Witness: a concrete record matched by the digits-only strategy after the
exact and normalized strategies produced nothing. -/
theorem c7_fallback_order_witness :
    selectMatch [⟨0, "G", "XX9", 100, 18⟩] ⟨"G", "AB9", 100, 18⟩
        = some ([⟨0, "G", "XX9", 100, 18⟩], .numKey)
    ∧ strat1 [⟨0, "G", "XX9", 100, 18⟩] ⟨"G", "AB9", 100, 18⟩ = []
    ∧ strat2 [⟨0, "G", "XX9", 100, 18⟩] ⟨"G", "AB9", 100, 18⟩ = [] :=
  ⟨by decide,
    (c7_fallback_order [⟨0, "G", "XX9", 100, 18⟩] ⟨"G", "AB9", 100, 18⟩
        [⟨0, "G", "XX9", 100, 18⟩] .numKey (by decide)).2.2.1 rfl |>.1,
    (c7_fallback_order [⟨0, "G", "XX9", 100, 18⟩] ⟨"G", "AB9", 100, 18⟩
        [⟨0, "G", "XX9", 100, 18⟩] .numKey (by decide)).2.2.1 rfl |>.2⟩

/-! ## Claim C8 : the amount-similarity fuzzy fallback -/

/-- C8 counterexample pool: one register row whose normalized invoice number
equals the normalized target number. -/
def c8poolNorm : List CsvRow := [⟨0, "G", "INV77", 100, 18⟩]

/-- C8 counterexample target matched by the normalized strategy. -/
def c8rowNorm : B2BRow := ⟨"G", "77", 100, 18⟩

/-- C8 counterexample pool for the fuzzy run: unrelated invoice numbers, close
amounts. -/
def c8poolFuzzy : List CsvRow := [⟨0, "G", "ZZ", 105, 18⟩]

/-- C8 counterexample target matched only by the fuzzy amount scan. -/
def c8rowFuzzy : B2BRow := ⟨"G", "QQ", 100, 18⟩

theorem selectMatch_fuzzy_example :
    selectMatch c8poolFuzzy c8rowFuzzy = some (c8poolFuzzy, .fuzzy) := by
  have hs1 : strat1 c8poolFuzzy c8rowFuzzy = [] := by decide
  have hs2 : strat2 c8poolFuzzy c8rowFuzzy = [] := by decide
  have hnum : numOnly c8rowFuzzy.inv_num = "" := by decide
  have hs4 : strat4 c8poolFuzzy c8rowFuzzy = some ⟨0, "G", "ZZ", 105, 18⟩ := by
    norm_num [strat4, c8poolFuzzy, c8rowFuzzy, fuzzyPercentDiff, List.find?,
      List.filter, abs_of_pos]
  unfold selectMatch
  simp only [hs1, hs2, if_pos hnum, hs4]
  rfl

/-- C8 is false in its flagging part: the result record carries no fuzzy
marker — its only flag is exact_match, and a normalized-key (non-fuzzy) match
receives exactly the same exact_match = false as an amount-similarity fuzzy
match, so fuzzy matches are not explicitly identified in the result. -/
theorem c8_counterexample :
    selectMatch c8poolNorm c8rowNorm = some (c8poolNorm, .normKey)
    ∧ selectMatch c8poolFuzzy c8rowFuzzy = some (c8poolFuzzy, .fuzzy)
    ∧ (mkMatchedRec c8rowNorm ⟨0, "G", "INV77", 100, 18⟩).exact_match = false
    ∧ (mkMatchedRec c8rowFuzzy ⟨0, "G", "ZZ", 105, 18⟩).exact_match = false :=
  ⟨by decide, selectMatch_fuzzy_example, by decide, by decide⟩

/-- C8 amended: when the fuzzy strategy fires (no invoice-number-based key
matched), the selected candidate is a single pool row with the same GSTIN
accepted under difference below 1 percent or below 10 units, and its matched
record carries exact_match = false — a marker it shares with the other
fallback strategies rather than a dedicated fuzzy flag. -/
theorem c8_fuzzy_acceptance (pool : List CsvRow) (row : B2BRow) (rows : List CsvRow)
    (h : selectMatch pool row = some (rows, .fuzzy)) :
    ∃ c, rows = [c] ∧ c ∈ pool ∧ c.gstin = row.gstin
      ∧ (fuzzyPercentDiff row c < 1 ∨ |c.taxable_value - row.taxable_value| < 10)
      ∧ (mkMatchedRec row c).exact_match = false := by
  rcases selectMatch_elim pool row rows .fuzzy h with
    ⟨hst, _, _⟩ | ⟨hst, _, _⟩ | ⟨hst, _, _⟩ | ⟨_, h1, _, _, c, hrows, hs4⟩
  · exact absurd hst (by decide)
  · exact absurd hst (by decide)
  · exact absurd hst (by decide)
  · unfold strat4 at hs4
    have hmem' := List.mem_of_find?_eq_some hs4
    have hpred := List.find?_some hs4
    rcases List.mem_filter.mp hmem' with ⟨hmem, hgstin⟩
    have hgstin' : c.gstin = row.gstin := eq_of_beq hgstin
    refine ⟨c, hrows, hmem, hgstin', ?_, ?_⟩
    · simp only [Bool.or_eq_true, decide_eq_true_eq] at hpred
      exact hpred
    · show (row.inv_num == c.inv_num) = false
      cases hb : row.inv_num == c.inv_num with
      | false => rfl
      | true =>
        have hbeq : (c.inv_num == row.inv_num) = true := beq_iff_eq.mpr (eq_of_beq hb).symm
        have hc1 : c ∈ strat1 pool row := by
          refine List.mem_filter.mpr ⟨hmem, ?_⟩
          simp [hgstin, hbeq]
        rw [h1] at hc1
        cases hc1

/-- Witness: the concrete fuzzy run — the candidate is in the pool, shares the
GSTIN, is accepted by the absolute-amount arm (5 < 10), and its record has
exact_match = false. -/
theorem c8_fuzzy_acceptance_witness :
    ∃ c, c8poolFuzzy = [c] ∧ c ∈ c8poolFuzzy ∧ c.gstin = c8rowFuzzy.gstin
      ∧ (fuzzyPercentDiff c8rowFuzzy c < 1
          ∨ |c.taxable_value - c8rowFuzzy.taxable_value| < 10)
      ∧ (mkMatchedRec c8rowFuzzy c).exact_match = false :=
  c8_fuzzy_acceptance c8poolFuzzy c8rowFuzzy c8poolFuzzy selectMatch_fuzzy_example

/-! ## Claim C9 : the summary match percentage -/

theorem classifyPair_pool (st : MainState) (row : B2BRow) (m : CsvRow)
    (pool1 : List CsvRow) : (classifyPair st row m pool1).pool = pool1 := by
  simp only [classifyPair]
  split <;> split <;> rfl

theorem dropLabels_length_le (pool : List CsvRow) (ls : List Nat) (pool1 : List CsvRow)
    (h : dropLabels pool ls = .ok pool1) : pool1.length ≤ pool.length := by
  unfold dropLabels at h
  split at h
  · cases h
    exact List.length_filter_le _ _
  · cases h

theorem processRow_pool_le (st : MainState) (r : B2BRow) (st1 : MainState)
    (h : processRow st r = .ok st1) : st1.pool.length ≤ st.pool.length := by
  unfold processRow at h
  split at h
  · cases h
    exact le_refl _
  · split at h
    · cases h
      exact le_refl _
    · split at h <;> dsimp only [] at h <;> split at h
      all_goals cases h
      all_goals rw [classifyPair_pool]
      all_goals exact dropLabels_length_le _ _ _ (by assumption)

theorem mainLoop_pool_le : ∀ (rs : List B2BRow) (st st1 : MainState),
    mainLoop st rs = .ok st1 → st1.pool.length ≤ st.pool.length := by
  intro rs
  induction rs with
  | nil =>
    intro st st1 h
    cases h
    exact le_refl _
  | cons r t ih =>
    intro st st1 h
    unfold mainLoop at h
    split at h
    next st2 heq => exact le_trans (ih st2 st1 h) (processRow_pool_le st r st2 heq)
    next => cases h

/-- C9 counterexample target row. -/
def c9row : B2BRow := ⟨"G1", "A1", 100, 18⟩

/-- C9 counterexample register row, an exact full match of the target. -/
def c9csv : CsvRow := ⟨0, "G1", "A1", 100, 18⟩

/-- The full output of the run on the single matching pair. -/
def c9out : MainResult :=
  ⟨[mkMatchedRec c9row c9csv], [], [], [], ⟨1, 1, 0, 0, 0, 100⟩⟩

theorem runMainRecon_example : runMainRecon [c9row] [c9csv] = .ok c9out := by
  have hsel : selectMatch [c9csv] c9row = some ([c9csv], .exact) := by decide
  have hdrop : dropLabels [(⟨0, "G1", "A1", 100, 18⟩ : CsvRow)] [0] = .ok [] := by decide
  have hproc : processRow ⟨[], [], [], [c9csv]⟩ c9row
      = .ok ⟨[mkMatchedRec c9row c9csv], [], [], []⟩ := by
    simp only [processRow, hsel]
    norm_num [c9csv, c9row, hdrop, classifyPair, abs_of_pos]
  have hloop : mainLoop ⟨[], [], [], [c9csv]⟩ [c9row]
      = .ok ⟨[mkMatchedRec c9row c9csv], [], [], []⟩ := by
    unfold mainLoop
    rw [hproc]
    rfl
  unfold runMainRecon
  rw [hloop]
  norm_num [c9out, pyRound2, roundHalfEven]

/-- C9 is false as stated: total_invoices is len(df_2b) plus the length of the
consumed df_csv, so a fully matched single pair yields a denominator of 1 and a
match percentage of 100, where the claimed formula matched / (|A| + |B|) * 100
gives 50. -/
theorem c9_counterexample :
    (runMainRecon [c9row] [c9csv]).map
        (fun o => (o.summary.match_percentage, o.summary.matched_count,
          o.summary.total_invoices))
      = .ok (100, 1, 1)
    ∧ ((1 : ℚ) / (([c9row].length : ℚ) + ([c9csv].length : ℚ)) * 100) = 50
    ∧ (100 : ℚ) ≠ 50 := by
  refine ⟨?_, by norm_num, by norm_num⟩
  rw [runMainRecon_example]
  rfl

/-- C9 amended: the denominator of match_percentage is not |A| + |B| but
len(df_2b) plus only the csv rows never consumed by a match (the
missing-in-GSTR-2B bucket, read from df_csv after the loop); it is therefore
at most |A| + |B|, and the percentage is matched_count over that reduced
total (rounded to two decimals). -/
theorem c9_total_counts_leftover_pool (A : List B2BRow) (B : List CsvRow)
    (out : MainResult) (h : runMainRecon A B = .ok out) :
    out.summary.total_invoices = A.length + out.missing_in_json.length
    ∧ out.missing_in_json.length ≤ B.length
    ∧ out.summary.matched_count = out.matched.length
    ∧ (0 < out.summary.total_invoices →
        out.summary.match_percentage
          = pyRound2 ((out.matched.length : ℚ)
              / (out.summary.total_invoices : ℚ) * 100)) := by
  unfold runMainRecon at h
  cases hml : mainLoop ⟨[], [], [], B⟩ A with
  | error e => rw [hml] at h; cases h
  | ok st =>
    rw [hml] at h
    have hpool := mainLoop_pool_le A ⟨[], [], [], B⟩ st hml
    cases h
    refine ⟨rfl, hpool, rfl, ?_⟩
    intro hpos
    rw [if_pos hpos]

/-- Witness: the amended description holds on the concrete single-pair run. -/
theorem c9_total_counts_leftover_pool_witness :
    runMainRecon [c9row] [c9csv] = .ok c9out
    ∧ c9out.summary.total_invoices = [c9row].length + c9out.missing_in_json.length
    ∧ c9out.missing_in_json.length ≤ [c9csv].length
    ∧ c9out.summary.matched_count = c9out.matched.length
    ∧ (0 < c9out.summary.total_invoices →
        c9out.summary.match_percentage
          = pyRound2 ((c9out.matched.length : ℚ)
              / (c9out.summary.total_invoices : ℚ) * 100)) :=
  ⟨runMainRecon_example,
    c9_total_counts_leftover_pool [c9row] [c9csv] c9out runMainRecon_example⟩
